import Mathlib

/-!
Shallow embedding of the security middleware of the Train Station Dashboard
repository (`src/lib/security/index.ts` and `src/lib/security/middleware.ts`).

JavaScript strings are modelled as Lean `String` (or `List Char` where the
character-level regex passes operate), JS numbers holding byte values, sizes
and millisecond timestamps as `Nat`, and each JS `Map` as an association list
`List (String × α)` in insertion order, with `Map.get` / `Map.set` /
`Map.delete` embedded as `mapFind` / `mapSet` / `mapErase`.  The ambient
wall-clock (`Date.now()`) and the crypto-random token values are passed in as
explicit arguments, since they are external inputs of the program.
-/

/-- `Map.get`: first (and, with unique keys, only) binding of `k`. -/
def mapFind {α : Type} (m : List (String × α)) (k : String) : Option α :=
  (m.find? (fun p => p.1 == k)).map Prod.snd

/-- `Map.set`: replace the binding of `k` in place, or append a new one. -/
def mapSet {α : Type} (m : List (String × α)) (k : String) (v : α) :
    List (String × α) :=
  match m with
  | [] => [(k, v)]
  | (k', v') :: rest =>
      if k' == k then (k, v) :: rest else (k', v') :: mapSet rest k v

/-- `Map.delete`: remove the binding of `k`. -/
def mapErase {α : Type} (m : List (String × α)) (k : String) :
    List (String × α) :=
  m.filter (fun p => p.1 != k)

/-- `SecurityConfig` from `src/lib/security/index.ts`. -/
structure SecurityConfig where
  enableCSRF : Bool
  enableXSSProtection : Bool
  enableSQLInjectionProtection : Bool
  maxFileSize : Nat
  allowedFileTypes : List String

/-- `defaultSecurityConfig` from `src/lib/security/index.ts`. -/
def defaultSecurityConfig : SecurityConfig :=
  { enableCSRF := true
    enableXSSProtection := true
    enableSQLInjectionProtection := true
    maxFileSize := 10 * 1024 * 1024
    allowedFileTypes :=
      [ "image/jpeg", "image/png", "image/gif", "image/webp",
        "application/pdf", "text/plain", "application/msword",
        "application/vnd.openxmlformats-officedocument.wordprocessingml.document" ] }

namespace InputSanitizer

/-- The SQL keywords of the first regex alternation in
`InputSanitizer.sanitizeSQLParameter`, in alternation order. -/
def sqlKeywords : List String :=
  ["SELECT", "INSERT", "UPDATE", "DELETE", "DROP",
   "CREATE", "ALTER", "EXEC", "UNION", "SCRIPT"]

/-- JS regex word character (`\w` = `[A-Za-z0-9_]`), as consulted by `\b`. -/
def isWordChar (c : Char) : Bool :=
  (c.isAlpha || c.isDigit) || c == '_'

/-- Case-insensitively consume `kw` from the front of `l`; on success return
the remainder of `l` (the keywords are ASCII uppercase, so the JS `i` flag is
`Char.toUpper` comparison). -/
def consumeKeyword : List Char → List Char → Option (List Char)
  | [], l => some l
  | _ :: _, [] => none
  | k :: ks, c :: cs => if c.toUpper == k then consumeKeyword ks cs else none

/-- `\b` holds at a position iff exactly one side is a word character; every
keyword starts and ends with a word character, so the boundary before (after)
the keyword requires the neighbouring original character, when present, to be
a non-word character. -/
def boundaryOk (oc : Option Char) : Bool :=
  match oc with
  | none => true
  | some c => !(isWordChar c)

/-- Try the keyword alternation at the current position: the character before
the position is a word character iff `prevW`.  On a match, return the
remainder after the keyword. -/
def keywordMatchAt (prevW : Bool) (l : List Char) : Option (List Char) :=
  if prevW then none
  else
    sqlKeywords.findSome? (fun kw =>
      match consumeKeyword kw.data l with
      | some rest => if boundaryOk rest.head? then some rest else none
      | none => none)

/-- One left-to-right global-replace scan of
`/(\b(SELECT|INSERT|UPDATE|DELETE|DROP|CREATE|ALTER|EXEC|UNION|SCRIPT)\b)/gi`
deleting each match.  `fuel` only bounds the recursion; every step consumes at
least one character, so `fuel = l.length` is always enough.  After a match the
scan resumes right after the matched keyword, whose last character is a word
character, so `prevW` becomes `true` there. -/
def stripKeywordsAux : Nat → Bool → List Char → List Char
  | 0, _, l => l
  | _ + 1, _, [] => []
  | fuel + 1, prevW, c :: rest =>
    match keywordMatchAt prevW (c :: rest) with
    | some r => stripKeywordsAux fuel true r
    | none => c :: stripKeywordsAux fuel (isWordChar c) rest

/-- First replacement pass of `sanitizeSQLParameter`. -/
def stripSQLKeywords (l : List Char) : List Char :=
  stripKeywordsAux l.length false l

/-- The characters deleted by the second pass
`/('|('')|"|;|%|_|\*|\?|<|>|\|)/g`.  Every alternative is a single character
(the two-character `('')` alternative is shadowed by the preceding `'`), so
the global replace deletes exactly these characters. -/
def sqlMetaChars : List Char :=
  ['\x27', '"', ';', '%', '_', '*', '?', '<', '>', '|']

/-- Second replacement pass of `sanitizeSQLParameter`. -/
def stripSQLChars (l : List Char) : List Char :=
  l.filter (fun c => !(sqlMetaChars.contains c))

/-- Third replacement pass of `sanitizeSQLParameter`: one left-to-right
global-replace scan of `/(--|\*\/|\/\*)/g`, deleting non-overlapping
occurrences of `--`, a star-slash pair, and a slash-star pair. -/
def stripSQLComments : List Char → List Char
  | [] => []
  | [c] => [c]
  | a :: b :: rest =>
    if (a == '-' && b == '-') || (a == '*' && b == '/') || (a == '/' && b == '*') then
      stripSQLComments rest
    else
      a :: stripSQLComments (b :: rest)

/-- `InputSanitizer.sanitizeSQLParameter` on a string input: the three regex
deletion passes applied in order (no-op when SQL-injection protection is
disabled). -/
def sanitizeSQLParameter (config : SecurityConfig) (input : List Char) : List Char :=
  if !config.enableSQLInjectionProtection then input
  else stripSQLComments (stripSQLChars (stripSQLKeywords input))

/-- Auxiliary decidable check used by the theorems below: does the character
list contain two adjacent dashes (the statement-separator `--` of the spec)? -/
def hasDoubleDash : List Char → Bool
  | a :: b :: rest => (a == '-' && b == '-') || hasDoubleDash (b :: rest)
  | _ => false

end InputSanitizer

namespace CSRFProtection

/-- A value of the private `tokens` map of `CSRFProtection`. -/
structure TokenData where
  token : String
  expires : Nat
  used : Bool
deriving DecidableEq, Repr

/-- The token store (`Map<string, {token, expires, used}>`). -/
abbrev Store : Type := List (String × TokenData)

/-- `tokenExpiry = 60 * 60 * 1000` (one hour, in milliseconds). -/
def tokenExpiry : Nat := 60 * 60 * 1000

/-- `CSRFProtection.generateToken`.  The crypto-random hex token `tok` and the
current time `now` are external inputs; the method stores
`{token, expires := now + tokenExpiry, used := false}` under `sessionId`
(overwriting any prior record) and returns the token. -/
def generateToken (store : Store) (sessionId tok : String) (now : Nat) :
    String × Store :=
  (tok, mapSet store sessionId { token := tok, expires := now + tokenExpiry, used := false })

/-- `CSRFProtection.validateToken`: false when no record, record used, record
expired (deleting it), or token mismatch; otherwise marks the record used and
returns true. -/
def validateToken (store : Store) (sessionId providedToken : String) (now : Nat) :
    Bool × Store :=
  match mapFind store sessionId with
  | none => (false, store)
  | some tokenData =>
    if tokenData.used then (false, store)
    else if now > tokenData.expires then (false, mapErase store sessionId)
    else if tokenData.token != providedToken then (false, store)
    else (true, mapSet store sessionId { tokenData with used := true })

/-- `CSRFProtection.cleanup`: delete every record that is expired or used. -/
def cleanup (store : Store) (now : Nat) : Store :=
  store.filter (fun p => !(decide (now > p.2.expires) || p.2.used))

end CSRFProtection

namespace SecurityHeaders

/-- Object spread `{...a, ...b}` on string records: every binding of `b` is
set into `a` in order (an existing key keeps its position, a new key is
appended). -/
def recordMerge (a b : List (String × String)) : List (String × String) :=
  b.foldl (fun acc p => mapSet acc p.1 p.2) a

/-- `getXSSHeaders`. -/
def getXSSHeaders : List (String × String) :=
  [("X-XSS-Protection", "1; mode=block"), ("X-Content-Type-Options", "nosniff")]

/-- `getFrameHeaders`. -/
def getFrameHeaders : List (String × String) :=
  [("X-Frame-Options", "DENY")]

/-- `getContentTypeHeaders`. -/
def getContentTypeHeaders : List (String × String) :=
  [("X-Content-Type-Options", "nosniff")]

/-- `getHSTSHeaders`. -/
def getHSTSHeaders : List (String × String) :=
  [("Strict-Transport-Security", "max-age=31536000; includeSubDomains; preload")]

/-- `getReferrerHeaders`. -/
def getReferrerHeaders : List (String × String) :=
  [("Referrer-Policy", "strict-origin-when-cross-origin")]

/-- `getPermissionHeaders`. -/
def getPermissionHeaders : List (String × String) :=
  [("Permissions-Policy", "camera=(), microphone=(), geolocation=(), payment=()")]

/-- `SecurityHeaders.getHeaders`: the spread of the six private header groups
(the source comments twice that the Content-Security-Policy header was
removed "for development flexibility", and no group produces one). -/
def getHeaders : List (String × String) :=
  recordMerge (recordMerge (recordMerge (recordMerge (recordMerge
    getXSSHeaders getFrameHeaders) getContentTypeHeaders) getHSTSHeaders)
    getReferrerHeaders) getPermissionHeaders

end SecurityHeaders

namespace FileUploadSecurity

/-- `InputSanitizer.sanitizeFilename`, step 1:
`replace(/[^a-zA-Z0-9\-_\.]/g, '_')`. -/
def filenameCharOk (c : Char) : Bool :=
  (('a' ≤ c && c ≤ 'z') || ('A' ≤ c && c ≤ 'Z') || ('0' ≤ c && c ≤ '9'))
    || c == '-' || c == '_' || c == '.'

/-- Step 2 worker: each step shortens the list by one, so `fuel = l.length`
is always enough. -/
def collapseDotsAux : Nat → List Char → List Char
  | 0, l => l
  | _ + 1, [] => []
  | _ + 1, [c] => [c]
  | fuel + 1, a :: b :: rest =>
    if a == '.' && b == '.' then collapseDotsAux fuel ('.' :: rest)
    else a :: collapseDotsAux fuel (b :: rest)

/-- Step 2: `replace(/\.+/g, '.')` collapses every run of dots to one dot. -/
def collapseDots (l : List Char) : List Char :=
  collapseDotsAux l.length l

/-- Step 3: `replace(/^\.+|\.+$/g, '')` trims leading and trailing dots. -/
def trimDots (l : List Char) : List Char :=
  ((l.dropWhile (fun c => c == '.')).reverse.dropWhile (fun c => c == '.')).reverse

/-- `InputSanitizer.sanitizeFilename`: replace disallowed characters by `_`,
collapse dot runs, trim boundary dots, truncate to 255 characters. -/
def sanitizeFilename (filename : String) : String :=
  ⟨(trimDots (collapseDots (filename.data.map
      (fun c => if filenameCharOk c then c else '_')))).take 255⟩

/-- The file descriptor taken by `FileUploadSecurity.validateFile`
(`{name, type, size, content?}`), bytes as naturals `< 256`. -/
structure FileDesc where
  name : String
  type : String
  size : Nat
  content : Option (List Nat)

/-- The result record of `validateFile`. -/
structure FileValidation where
  valid : Bool
  errors : List String
  sanitizedName : Option String
deriving DecidableEq, Repr

/-- The `dangerousExtensions` denylist (shared by `validateFile` and
`SecurityMiddleware.validateFileUpload`). -/
def dangerousExtensions : List String :=
  [".exe", ".bat", ".cmd", ".scr", ".com", ".pif", ".vbs", ".js", ".jar"]

/-- The executable magic numbers checked by `scanFileContent`:
PE, ELF, Java class, Mach-O. -/
def signatures : List (List Nat) :=
  [[0x4D, 0x5A], [0x7F, 0x45, 0x4C, 0x46], [0xCA, 0xFE, 0xBA, 0xBE],
   [0xFE, 0xED, 0xFA, 0xCE]]

/-- `FileUploadSecurity.matchesSignature`: false when the file is shorter than
the signature, otherwise byte-wise comparison of the leading bytes. -/
def matchesSignature (bytes signature : List Nat) : Bool :=
  if bytes.length < signature.length then false
  else bytes.take signature.length == signature

/-- `FileUploadSecurity.scanFileContent`: one error if any executable
signature matches (the source breaks after the first match). -/
def scanFileContent (content : List Nat) : List String :=
  if signatures.any (fun signature => matchesSignature content signature) then
    ["File contains executable code"]
  else []

/-- Lower-casing as `String.prototype.toLowerCase` on ASCII names. -/
def lowerStr (s : String) : List Char :=
  s.data.map Char.toLower

/-- `dangerousExtensions.some(ext => name.toLowerCase().endsWith(ext))`. -/
def hasDangerousExtension (name : String) : Bool :=
  dangerousExtensions.any (fun ext => ext.data.isSuffixOf (lowerStr name))

/-- `FileUploadSecurity.validateFile`.  The source has a variable-shadowing
slip: in `if (file.content) { const errors = this.scanFileContent(...);
errors.forEach(error => errors.push(error)); }` the inner `errors` constant
shadows the outer accumulator, so the content-scan errors are appended to the
scan's own result list and never reach the outer list; the embedding
reproduces that by dropping them. -/
def validateFile (config : SecurityConfig) (file : FileDesc) : FileValidation :=
  let sizeErrors : List String :=
    if file.size > config.maxFileSize then
      [s!"File size exceeds maximum limit of {config.maxFileSize / (1024 * 1024)}MB"]
    else []
  let typeErrors : List String :=
    if !(config.allowedFileTypes.contains file.type) then
      [s!"File type {file.type} is not allowed"]
    else []
  let sanitizedName := sanitizeFilename file.name
  let extensionErrors : List String :=
    if hasDangerousExtension sanitizedName then ["File extension is not allowed"]
    else []
  let errors := sizeErrors ++ typeErrors ++ extensionErrors
  -- the discarded content-scan result (shadowed-variable bug in the source)
  let _contentErrors : List String :=
    match file.content with
    | some content => scanFileContent content
    | none => []
  { valid := errors.isEmpty
    errors := errors
    sanitizedName := if errors.isEmpty then some sanitizedName else none }

end FileUploadSecurity

namespace SessionSecurity

/-- A value of the private `sessions` map of `SessionSecurity`. -/
structure SessionData where
  userId : String
  created : Nat
  lastActivity : Nat
  ipAddress : String
  userAgent : String
deriving DecidableEq, Repr

/-- The session store (`Map<string, {...}>`). -/
abbrev Store : Type := List (String × SessionData)

/-- `maxSessionAge = 24 * 60 * 60 * 1000` (24 hours, in milliseconds). -/
def maxSessionAge : Nat := 24 * 60 * 60 * 1000

/-- `maxIdleTime = 2 * 60 * 60 * 1000` (2 hours, in milliseconds). -/
def maxIdleTime : Nat := 2 * 60 * 60 * 1000

/-- The result record of `validateSession`. -/
structure SessionValidation where
  valid : Bool
  userId : Option String
  reason : Option String
deriving DecidableEq, Repr

/-- `SessionSecurity.createSession`: the random session id and the current
time are external inputs; the method stores the binding metadata and returns
the session id. -/
def createSession (store : Store) (userId ipAddress userAgent : String)
    (sessionId : String) (now : Nat) : String × Store :=
  (sessionId, mapSet store sessionId
    { userId := userId, created := now, lastActivity := now,
      ipAddress := ipAddress, userAgent := userAgent })

set_option linter.unusedVariables false in
/-- `SessionSecurity.validateSession`: not-found, absolute-age, idle-time and
IP-consistency checks in that order (the age comparisons are on millisecond
differences; `Nat` truncated subtraction agrees with the JS number
subtraction on every reachable state, where timestamps never exceed `now`,
and in any case both sides make the `> bound` test false when the stored
timestamp exceeds `now`).  Each of the three record-destroying failures
deletes the record; success refreshes `lastActivity` and returns the bound
user id.  The `userAgent` argument is never consulted. -/
def validateSession (store : Store) (sessionId ipAddress userAgent : String)
    (now : Nat) : SessionValidation × Store :=
  match mapFind store sessionId with
  | none =>
      ({ valid := false, userId := none, reason := some "Session not found" }, store)
  | some session =>
    if now - session.created > maxSessionAge then
      ({ valid := false, userId := none, reason := some "Session expired" },
       mapErase store sessionId)
    else if now - session.lastActivity > maxIdleTime then
      ({ valid := false, userId := none, reason := some "Session idle timeout" },
       mapErase store sessionId)
    else if session.ipAddress != ipAddress then
      ({ valid := false, userId := none, reason := some "IP address mismatch" },
       mapErase store sessionId)
    else
      ({ valid := true, userId := some session.userId, reason := none },
       mapSet store sessionId { session with lastActivity := now })

/-- `SessionSecurity.destroySession`. -/
def destroySession (store : Store) (sessionId : String) : Store :=
  mapErase store sessionId

/-- `SessionSecurity.cleanup`: delete every session past the absolute or the
idle expiry. -/
def cleanup (store : Store) (now : Nat) : Store :=
  store.filter (fun p =>
    !(decide (now - p.2.created > maxSessionAge)
        || decide (now - p.2.lastActivity > maxIdleTime)))

end SessionSecurity

/-- The dynamic values traversed by `SecurityMiddleware.sanitizeFormData`:
strings, numbers, booleans, `null`, plain objects (ordered string-keyed
entries) and arrays. -/
inductive JSValue where
  | str : String → JSValue
  | num : Int → JSValue
  | bool : Bool → JSValue
  | null : JSValue
  | obj : List (String × JSValue) → JSValue
  | arr : List JSValue → JSValue

namespace SecurityMiddleware

/-- `SecurityMiddlewareConfig` from `src/lib/security/middleware.ts` (the
`rateLimitBypass` list plays no role in the embedded operations). -/
structure MWConfig where
  enableCSRF : Bool
  enableSecurityHeaders : Bool
  enableInputSanitization : Bool
deriving DecidableEq, Repr

/-- `SecurityMiddleware.applySecurityHeaders`: empty when disabled, otherwise
`defaultSecurityHeaders.getHeaders()`. -/
def applySecurityHeaders (config : MWConfig) : List (String × String) :=
  if !config.enableSecurityHeaders then []
  else SecurityHeaders.getHeaders

mutual

/-- The per-value branch of the `sanitizeFormData` entries loop (sanitization
enabled): strings go through `defaultSanitizer.sanitizeText` (the black-box
markup stripper `san`), non-null objects and arrays recurse through
`this.sanitizeFormData` (whose `Object.entries` turns an array into a plain
object keyed by the decimal string indices), everything else (numbers,
booleans, `null`) passes through unchanged. -/
def sanitizeVal (san : String → String) : JSValue → JSValue
  | .str s => .str (san s)
  | .obj entries => .obj (sanitizeEntries san entries)
  | .arr elems => .obj (indexEntries san 0 elems)
  | .num n => .num n
  | .bool b => .bool b
  | .null => .null

/-- The `Object.entries` loop of `sanitizeFormData` over an object. -/
def sanitizeEntries (san : String → String) :
    List (String × JSValue) → List (String × JSValue)
  | [] => []
  | (k, v) :: rest => (k, sanitizeVal san v) :: sanitizeEntries san rest

/-- The `Object.entries` loop over an array: keys are the decimal string
indices, counting from `i`. -/
def indexEntries (san : String → String) (i : Nat) :
    List JSValue → List (String × JSValue)
  | [] => []
  | v :: rest => (toString i, sanitizeVal san v) :: indexEntries san (i + 1) rest

end

/-- `SecurityMiddleware.sanitizeFormData` on a plain-object (`Record`) input:
the input unchanged when input sanitization is disabled, otherwise the
entries loop. -/
def sanitizeFormData (config : MWConfig) (san : String → String)
    (formData : List (String × JSValue)) : List (String × JSValue) :=
  if !config.enableInputSanitization then formData
  else sanitizeEntries san formData

/-- `SecurityMiddleware.generateCSRFToken`: empty token when CSRF is
disabled, otherwise `defaultCSRFProtection.generateToken` (the store is the
singleton's state, threaded explicitly). -/
def generateCSRFToken (config : MWConfig) (store : CSRFProtection.Store)
    (sessionId tok : String) (now : Nat) : String × CSRFProtection.Store :=
  if !config.enableCSRF then ("", store)
  else CSRFProtection.generateToken store sessionId tok now

/-- `SecurityMiddleware.validateCSRFToken`: `true` when CSRF is disabled,
otherwise `defaultCSRFProtection.validateToken`. -/
def validateCSRFToken (config : MWConfig) (store : CSRFProtection.Store)
    (sessionId token : String) (now : Nat) : Bool × CSRFProtection.Store :=
  if !config.enableCSRF then (true, store)
  else CSRFProtection.validateToken store sessionId token now

/-- The result record of `SecurityMiddleware.validateFileUpload`. -/
structure UploadValidation where
  valid : Bool
  errors : List String
deriving DecidableEq, Repr

/-- The hard-coded `allowedTypes` list of
`SecurityMiddleware.validateFileUpload`. -/
def allowedTypes : List String :=
  [ "image/jpeg", "image/png", "image/gif", "image/webp",
    "application/pdf", "text/plain", "application/msword",
    "application/vnd.openxmlformats-officedocument.wordprocessingml.document" ]

/-- The hard-coded `maxSize = 10 * 1024 * 1024` (10 MiB). -/
def maxSize : Nat := 10 * 1024 * 1024

/-- `SecurityMiddleware.validateFileUpload`: MIME allow-list check, size
ceiling check, then extension denylist check on the raw (lower-cased) file
name; the error messages accumulate in that order. -/
def validateFileUpload (file : FileUploadSecurity.FileDesc) : UploadValidation :=
  let typeErrors : List String :=
    if !(allowedTypes.contains file.type) then
      [s!"File type {file.type} is not allowed"]
    else []
  let sizeErrors : List String :=
    if file.size > maxSize then
      [s!"File size exceeds maximum limit of {maxSize / (1024 * 1024)}MB"]
    else []
  let extensionErrors : List String :=
    if FileUploadSecurity.hasDangerousExtension file.name then
      ["File extension is not allowed for security reasons"]
    else []
  let errors := typeErrors ++ sizeErrors ++ extensionErrors
  { valid := errors.isEmpty, errors := errors }

end SecurityMiddleware

/-! ## Association-list lemmas -/

theorem mapFind_mapSet_self {α : Type} (m : List (String × α)) (k : String) (v : α) :
    mapFind (mapSet m k v) k = some v := by
  induction m with
  | nil => simp [mapFind, mapSet]
  | cons p rest ih =>
    obtain ⟨k', v'⟩ := p
    by_cases h : k' = k
    · subst h
      simp [mapFind, mapSet]
    · simp only [mapSet, beq_iff_eq, if_neg h]
      simpa [mapFind, h] using ih

theorem mapFind_mapSet_ne {α : Type} (m : List (String × α)) (k k' : String) (v : α)
    (h : k' ≠ k) : mapFind (mapSet m k v) k' = mapFind m k' := by
  induction m with
  | nil => simp [mapFind, mapSet, Ne.symm h]
  | cons p rest ih =>
    obtain ⟨k₀, v₀⟩ := p
    by_cases h0 : k₀ = k
    · subst h0
      simp [mapFind, mapSet, Ne.symm h, fun hh : k₀ = k' => h hh.symm]
    · simp only [mapSet, beq_iff_eq, if_neg h0]
      by_cases h1 : k₀ = k'
      · subst h1
        simp [mapFind]
      · simpa [mapFind, h1] using ih

/-! ## Claim C6: session validation failure reasons and effects -/

/-- C6: `validateSession` fails with reason "Session not found" when no record
exists (store untouched); with "Session expired" when the 24-hour absolute age
is exceeded; with "Session idle timeout" when, the age being fine, the 2-hour
idle bound is exceeded; with "IP address mismatch" when, both times being
fine, the supplied IP differs from the stored one (the code enforces IP
consistency unconditionally); each of the three latter failures deletes the
stored record, and success refreshes `lastActivity` to `now` and returns the
bound `userId`. -/
theorem validateSession_reasons (store : SessionSecurity.Store)
    (sid ip ua : String) (now : Nat) :
    (mapFind store sid = none →
      SessionSecurity.validateSession store sid ip ua now
        = ({ valid := false, userId := none, reason := some "Session not found" },
           store)) ∧
    (∀ s, mapFind store sid = some s →
      (now - s.created > SessionSecurity.maxSessionAge →
        SessionSecurity.validateSession store sid ip ua now
          = ({ valid := false, userId := none, reason := some "Session expired" },
             mapErase store sid)) ∧
      (now - s.created ≤ SessionSecurity.maxSessionAge →
       now - s.lastActivity > SessionSecurity.maxIdleTime →
        SessionSecurity.validateSession store sid ip ua now
          = ({ valid := false, userId := none, reason := some "Session idle timeout" },
             mapErase store sid)) ∧
      (now - s.created ≤ SessionSecurity.maxSessionAge →
       now - s.lastActivity ≤ SessionSecurity.maxIdleTime →
       s.ipAddress ≠ ip →
        SessionSecurity.validateSession store sid ip ua now
          = ({ valid := false, userId := none, reason := some "IP address mismatch" },
             mapErase store sid)) ∧
      (now - s.created ≤ SessionSecurity.maxSessionAge →
       now - s.lastActivity ≤ SessionSecurity.maxIdleTime →
       s.ipAddress = ip →
        SessionSecurity.validateSession store sid ip ua now
          = ({ valid := true, userId := some s.userId, reason := none },
             mapSet store sid { s with lastActivity := now }))) := by
  constructor
  · intro h
    simp [SessionSecurity.validateSession, h]
  · intro s hs
    refine ⟨?_, ?_, ?_, ?_⟩
    · intro h1
      simp [SessionSecurity.validateSession, hs, h1]
    · intro h1 h2
      simp [SessionSecurity.validateSession, hs, Nat.not_lt_of_le h1, h2]
    · intro h1 h2 h3
      simp [SessionSecurity.validateSession, hs, Nat.not_lt_of_le h1,
        Nat.not_lt_of_le h2, bne_iff_ne, h3]
    · intro h1 h2 h3
      simp [SessionSecurity.validateSession, hs, Nat.not_lt_of_le h1,
        Nat.not_lt_of_le h2, bne_iff_ne, h3]

/-- Concrete instances of every case of `validateSession_reasons`. -/
theorem validateSession_reasons_witness :
    SessionSecurity.validateSession [] "s" "ip" "ua" 0
      = ({ valid := false, userId := none, reason := some "Session not found" }, []) ∧
    SessionSecurity.validateSession
        [("s", { userId := "u", created := 0, lastActivity := 0,
                 ipAddress := "ip", userAgent := "ua" })] "s" "ip" "ua" 86400001
      = ({ valid := false, userId := none, reason := some "Session expired" }, []) ∧
    SessionSecurity.validateSession
        [("s", { userId := "u", created := 80000000, lastActivity := 80000000,
                 ipAddress := "ip", userAgent := "ua" })] "s" "ip" "ua" 87200001
      = ({ valid := false, userId := none, reason := some "Session idle timeout" }, []) ∧
    SessionSecurity.validateSession
        [("s", { userId := "u", created := 0, lastActivity := 0,
                 ipAddress := "ip", userAgent := "ua" })] "s" "other-ip" "ua" 5
      = ({ valid := false, userId := none, reason := some "IP address mismatch" }, []) ∧
    SessionSecurity.validateSession
        [("s", { userId := "u", created := 0, lastActivity := 0,
                 ipAddress := "ip", userAgent := "ua" })] "s" "ip" "ua" 5
      = ({ valid := true, userId := some "u", reason := none },
         [("s", { userId := "u", created := 0, lastActivity := 5,
                  ipAddress := "ip", userAgent := "ua" })]) := by
  refine ⟨(validateSession_reasons [] "s" "ip" "ua" 0).1 (by decide), ?_, ?_, ?_, ?_⟩
  · exact ((validateSession_reasons
        [("s", { userId := "u", created := 0, lastActivity := 0,
                 ipAddress := "ip", userAgent := "ua" })] "s" "ip" "ua" 86400001).2
        { userId := "u", created := 0, lastActivity := 0,
          ipAddress := "ip", userAgent := "ua" } (by decide)).1 (by decide)
  · exact ((validateSession_reasons
        [("s", { userId := "u", created := 80000000, lastActivity := 80000000,
                 ipAddress := "ip", userAgent := "ua" })] "s" "ip" "ua" 87200001).2
        { userId := "u", created := 80000000, lastActivity := 80000000,
          ipAddress := "ip", userAgent := "ua" } (by decide)).2.1
      (by decide) (by decide)
  · exact ((validateSession_reasons
        [("s", { userId := "u", created := 0, lastActivity := 0,
                 ipAddress := "ip", userAgent := "ua" })] "s" "other-ip" "ua" 5).2
        { userId := "u", created := 0, lastActivity := 0,
          ipAddress := "ip", userAgent := "ua" } (by decide)).2.2.1
      (by decide) (by decide) (by decide)
  · exact ((validateSession_reasons
        [("s", { userId := "u", created := 0, lastActivity := 0,
                 ipAddress := "ip", userAgent := "ua" })] "s" "ip" "ua" 5).2
        { userId := "u", created := 0, lastActivity := 0,
          ipAddress := "ip", userAgent := "ua" } (by decide)).2.2.2
      (by decide) (by decide) (by decide)

/-! ## Claim C10: `validateSession` ignores the user agent -/

/-- C10: the result and the state effect of `validateSession` do not depend on
the `userAgent` argument: two calls differing only there return the same
`{valid, userId, reason}` record and the same session store. -/
theorem validateSession_userAgent_independent (store : SessionSecurity.Store)
    (sid ip ua₁ ua₂ : String) (now : Nat) :
    SessionSecurity.validateSession store sid ip ua₁ now
      = SessionSecurity.validateSession store sid ip ua₂ now := rfl

/-! ## Claim C1: a CSRF token validates exactly once, and only for its session -/

/-- C1: with CSRF enabled, a token `tok` returned by
`generateCSRFToken sid` (fresh randomness: no other session's record holds
the same token value) validates once for `sid` within its lifetime, a
repeated validation on the resulting store returns `false` at any time, and
validation against any other session id returns `false` at any time. -/
theorem csrf_token_validates_exactly_once (config : SecurityMiddleware.MWConfig)
    (store : CSRFProtection.Store) (sid sid2 tok : String) (n n1 n2 n3 : Nat)
    (hcsrf : config.enableCSRF = true)
    (hne : sid2 ≠ sid)
    (hfresh : ∀ td, mapFind store sid2 = some td → td.token ≠ tok)
    (hlife : n1 ≤ n + CSRFProtection.tokenExpiry) :
    (SecurityMiddleware.generateCSRFToken config store sid tok n).1 = tok ∧
    (SecurityMiddleware.validateCSRFToken config
        (SecurityMiddleware.generateCSRFToken config store sid tok n).2
        sid tok n1).1 = true ∧
    (SecurityMiddleware.validateCSRFToken config
        (SecurityMiddleware.validateCSRFToken config
          (SecurityMiddleware.generateCSRFToken config store sid tok n).2
          sid tok n1).2
        sid tok n2).1 = false ∧
    (SecurityMiddleware.validateCSRFToken config
        (SecurityMiddleware.generateCSRFToken config store sid tok n).2
        sid2 tok n3).1 = false := by
  simp only [SecurityMiddleware.generateCSRFToken,
    SecurityMiddleware.validateCSRFToken, hcsrf, Bool.not_true,
    Bool.false_eq_true, if_false]
  have hgen :
      (CSRFProtection.generateToken store sid tok n).2
        = mapSet store sid { token := tok, expires := n + CSRFProtection.tokenExpiry,
                             used := false } := rfl
  refine ⟨rfl, ?_, ?_, ?_⟩
  · simp [CSRFProtection.validateToken, hgen, mapFind_mapSet_self,
      Nat.not_lt_of_le hlife]
  · simp [CSRFProtection.validateToken, hgen, mapFind_mapSet_self,
      Nat.not_lt_of_le hlife, mapFind_mapSet_self]
  · rw [hgen, CSRFProtection.validateToken.eq_def]
    rw [mapFind_mapSet_ne store sid sid2 _ hne]
    cases h2 : mapFind store sid2 with
    | none => rfl
    | some td =>
      have hmm : td.token ≠ tok := hfresh td h2
      simp only [bne_iff_ne, ne_eq, hmm, not_false_eq_true, if_true]
      split <;> first | rfl | (split <;> rfl)

/-- Concrete instance of `csrf_token_validates_exactly_once`: the spec's own
scenario (`sess-1` mints `T`, validates once, then neither again nor for
`sess-2`). -/
theorem csrf_token_validates_exactly_once_witness :
    (SecurityMiddleware.generateCSRFToken
        { enableCSRF := true, enableSecurityHeaders := true,
          enableInputSanitization := true } [] "sess-1" "T" 0).1 = "T" ∧
    (SecurityMiddleware.validateCSRFToken
        { enableCSRF := true, enableSecurityHeaders := true,
          enableInputSanitization := true }
        (SecurityMiddleware.generateCSRFToken
          { enableCSRF := true, enableSecurityHeaders := true,
            enableInputSanitization := true } [] "sess-1" "T" 0).2
        "sess-1" "T" 1).1 = true ∧
    (SecurityMiddleware.validateCSRFToken
        { enableCSRF := true, enableSecurityHeaders := true,
          enableInputSanitization := true }
        (SecurityMiddleware.validateCSRFToken
          { enableCSRF := true, enableSecurityHeaders := true,
            enableInputSanitization := true }
          (SecurityMiddleware.generateCSRFToken
            { enableCSRF := true, enableSecurityHeaders := true,
              enableInputSanitization := true } [] "sess-1" "T" 0).2
          "sess-1" "T" 1).2
        "sess-1" "T" 2).1 = false ∧
    (SecurityMiddleware.validateCSRFToken
        { enableCSRF := true, enableSecurityHeaders := true,
          enableInputSanitization := true }
        (SecurityMiddleware.generateCSRFToken
          { enableCSRF := true, enableSecurityHeaders := true,
            enableInputSanitization := true } [] "sess-1" "T" 0).2
        "sess-2" "T" 3).1 = false :=
  csrf_token_validates_exactly_once
    { enableCSRF := true, enableSecurityHeaders := true,
      enableInputSanitization := true } [] "sess-1" "sess-2" "T" 0 1 2 3
    rfl (by decide) (fun td h => Option.noConfusion h) (by decide)

/-! ## Claim C7: CSRF token-store invariants -/

theorem mem_keys_mapSet {α : Type} (m : List (String × α)) (k x : String) (v : α)
    (h : x ∈ (mapSet m k v).map Prod.fst) : x ∈ m.map Prod.fst ∨ x = k := by
  induction m with
  | nil => simpa [mapSet] using h
  | cons p rest ih =>
    obtain ⟨k₀, v₀⟩ := p
    by_cases h0 : k₀ = k
    · subst h0
      exact Or.inl (by simpa [mapSet] using h)
    · simp only [mapSet, beq_iff_eq, if_neg h0, List.map_cons, List.mem_cons] at h
      rcases h with h | h
      · exact Or.inl (by simp [h])
      · rcases ih h with h' | h'
        · exact Or.inl (by simp [h'])
        · exact Or.inr h'

theorem nodup_keys_mapSet {α : Type} (m : List (String × α)) (k : String) (v : α)
    (h : (m.map Prod.fst).Nodup) : ((mapSet m k v).map Prod.fst).Nodup := by
  induction m with
  | nil => simp [mapSet]
  | cons p rest ih =>
    obtain ⟨k₀, v₀⟩ := p
    simp only [List.map_cons, List.nodup_cons] at h
    by_cases h0 : k₀ = k
    · subst h0
      simpa [mapSet] using h
    · simp only [mapSet, beq_iff_eq, if_neg h0, List.map_cons, List.nodup_cons]
      refine ⟨fun hmem => ?_, ih h.2⟩
      rcases mem_keys_mapSet rest k k₀ v hmem with h' | h'
      · exact h.1 h'
      · exact h0 h'

theorem nodup_keys_filter {α : Type} (m : List (String × α)) (f : String × α → Bool)
    (h : (m.map Prod.fst).Nodup) : (((m.filter f).map Prod.fst)).Nodup :=
  h.sublist (List.Sublist.map Prod.fst (List.filter_sublist m))

/-- C7 counterexample: after `generateToken` for session `s` followed by a
successful `validateToken`, the store still holds the (now used) record for
`s` — a used record is not removed from the store by the operation sequence,
only marked `used := true`. -/
theorem csrf_used_record_persists :
    mapFind
        (CSRFProtection.validateToken
          (CSRFProtection.generateToken [] "s" "t" 0).2 "s" "t" 0).2 "s"
      = some { token := "t", expires := CSRFProtection.tokenExpiry, used := true }
      ∧ (CSRFProtection.validateToken
          (CSRFProtection.generateToken [] "s" "t" 0).2 "s" "t" 0).1 = true := by
  constructor <;> rfl

/-- C7 (amended): after every store-modifying operation each session key
still holds at most one token record (`generateToken` overwrites in place,
the keys stay duplicate-free under `generateToken`, `validateToken` and
`cleanup`), and `cleanup` removes every record that is expired or used at
sweep time; a used record, however, persists in the store until the next
`cleanup` or overwrite. -/
theorem csrf_store_invariant (store : CSRFProtection.Store)
    (sid tok ptok : String) (n m : Nat)
    (hkeys : (store.map Prod.fst).Nodup) :
    (((CSRFProtection.generateToken store sid tok n).2.map Prod.fst)).Nodup ∧
    (((CSRFProtection.validateToken store sid ptok n).2.map Prod.fst)).Nodup ∧
    (((CSRFProtection.cleanup store m).map Prod.fst)).Nodup ∧
    (∀ p ∈ CSRFProtection.cleanup store m,
      p.2.used = false ∧ ¬ (m > p.2.expires)) := by
  refine ⟨nodup_keys_mapSet store sid _ hkeys, ?_, nodup_keys_filter store _ hkeys, ?_⟩
  · rw [CSRFProtection.validateToken.eq_def]
    cases h : mapFind store sid with
    | none => exact hkeys
    | some td =>
      by_cases hu : td.used
      · simpa [hu] using hkeys
      · by_cases he : n > td.expires
        · simpa [hu, he, mapErase] using nodup_keys_filter store _ hkeys
        · by_cases hm : td.token != ptok
          · simpa [hu, he, hm] using hkeys
          · simpa [hu, he, hm] using nodup_keys_mapSet store sid _ hkeys
  · intro p hp
    simp only [CSRFProtection.cleanup] at hp
    have := List.of_mem_filter hp
    constructor
    · rcases hu : p.2.used with _ | _
      · rfl
      · simp [hu] at this
    · intro hgt
      simp [hgt] at this

/-- Concrete instance of `csrf_store_invariant` on a one-record store holding
a used token. -/
theorem csrf_store_invariant_witness :
    (((CSRFProtection.generateToken [("a", { token := "t", expires := 5, used := true })]
        "b" "u" 0).2.map Prod.fst)).Nodup ∧
    (((CSRFProtection.validateToken [("a", { token := "t", expires := 5, used := true })]
        "a" "t" 0).2.map Prod.fst)).Nodup ∧
    (((CSRFProtection.cleanup [("a", { token := "t", expires := 5, used := true })]
        0).map Prod.fst)).Nodup ∧
    (∀ p ∈ CSRFProtection.cleanup [("a", { token := "t", expires := 5, used := true })] 0,
      p.2.used = false ∧ ¬ ((0 : Nat) > p.2.expires)) :=
  csrf_store_invariant [("a", { token := "t", expires := 5, used := true })]
    "b" "u" "t" 0 0 (by decide)

/-! ## Claim C8: disabled policy flags short-circuit to no-ops -/

/-- C8: with input sanitization disabled `sanitizeFormData` returns its input
unchanged; with CSRF disabled `generateCSRFToken` returns the empty string
and `validateCSRFToken` returns `true`, neither touching the store; with
security headers disabled `applySecurityHeaders` returns the empty mapping. -/
theorem disabled_features_are_noops (config : SecurityMiddleware.MWConfig)
    (san : String → String) (formData : List (String × JSValue))
    (store : CSRFProtection.Store) (sid tok : String) (n : Nat) :
    (config.enableInputSanitization = false →
      SecurityMiddleware.sanitizeFormData config san formData = formData) ∧
    (config.enableCSRF = false →
      SecurityMiddleware.generateCSRFToken config store sid tok n = ("", store) ∧
      SecurityMiddleware.validateCSRFToken config store sid tok n = (true, store)) ∧
    (config.enableSecurityHeaders = false →
      SecurityMiddleware.applySecurityHeaders config = []) := by
  refine ⟨fun h => ?_, fun h => ⟨?_, ?_⟩, fun h => ?_⟩
  · simp [SecurityMiddleware.sanitizeFormData, h]
  · simp [SecurityMiddleware.generateCSRFToken, h]
  · simp [SecurityMiddleware.validateCSRFToken, h]
  · simp [SecurityMiddleware.applySecurityHeaders, h]

/-- Concrete instance of `disabled_features_are_noops` with every flag off. -/
theorem disabled_features_are_noops_witness :
    (SecurityMiddleware.sanitizeFormData
        { enableCSRF := false, enableSecurityHeaders := false,
          enableInputSanitization := false }
        (fun s => s) [("comment", JSValue.str "<script>alert(1)</script>")]
      = [("comment", JSValue.str "<script>alert(1)</script>")]) ∧
    (SecurityMiddleware.generateCSRFToken
        { enableCSRF := false, enableSecurityHeaders := false,
          enableInputSanitization := false } [] "sess-1" "T" 0 = ("", [])) ∧
    (SecurityMiddleware.validateCSRFToken
        { enableCSRF := false, enableSecurityHeaders := false,
          enableInputSanitization := false } [] "sess-1" "T" 0 = (true, [])) ∧
    (SecurityMiddleware.applySecurityHeaders
        { enableCSRF := false, enableSecurityHeaders := false,
          enableInputSanitization := false } = []) := by
  have h := disabled_features_are_noops
    { enableCSRF := false, enableSecurityHeaders := false,
      enableInputSanitization := false }
    (fun s => s) [("comment", JSValue.str "<script>alert(1)</script>")]
    [] "sess-1" "T" 0
  exact ⟨h.1 rfl, (h.2.1 rfl).1, (h.2.1 rfl).2, h.2.2 rfl⟩

/-! ## Claim C9: shape of `sanitizeFormData` on plain objects -/

theorem sanitizeEntries_eq_map (san : String → String)
    (entries : List (String × JSValue)) :
    SecurityMiddleware.sanitizeEntries san entries
      = entries.map (fun p => (p.1, SecurityMiddleware.sanitizeVal san p.2)) := by
  induction entries with
  | nil => simp [SecurityMiddleware.sanitizeEntries]
  | cons p rest ih =>
    obtain ⟨k, v⟩ := p
    simp [SecurityMiddleware.sanitizeEntries, ih]

theorem indexEntries_eq_enumFrom (san : String → String)
    (elems : List JSValue) (i : Nat) :
    SecurityMiddleware.indexEntries san i elems
      = (List.enumFrom i elems).map
          (fun p => (toString p.1, SecurityMiddleware.sanitizeVal san p.2)) := by
  induction elems generalizing i with
  | nil => simp [SecurityMiddleware.indexEntries]
  | cons v rest ih =>
    simp [SecurityMiddleware.indexEntries, List.enumFrom, ih]

/-- C9: with sanitization enabled, `sanitizeFormData` on a plain object keeps
exactly the keys in order, sends every string value through the text
sanitizer, leaves `null`, number and boolean values unchanged, recurses into
nested objects, and turns an array value into a plain object keyed by the
array's decimal string indices (array shape is not preserved). -/
theorem sanitizeFormData_shape (config : SecurityMiddleware.MWConfig)
    (san : String → String) (entries : List (String × JSValue))
    (elems : List JSValue) (s : String) (n : Int) (b : Bool)
    (hen : config.enableInputSanitization = true) :
    SecurityMiddleware.sanitizeFormData config san entries
      = entries.map (fun p => (p.1, SecurityMiddleware.sanitizeVal san p.2)) ∧
    (SecurityMiddleware.sanitizeFormData config san entries).map Prod.fst
      = entries.map Prod.fst ∧
    SecurityMiddleware.sanitizeVal san (JSValue.str s) = JSValue.str (san s) ∧
    SecurityMiddleware.sanitizeVal san (JSValue.num n) = JSValue.num n ∧
    SecurityMiddleware.sanitizeVal san (JSValue.bool b) = JSValue.bool b ∧
    SecurityMiddleware.sanitizeVal san JSValue.null = JSValue.null ∧
    SecurityMiddleware.sanitizeVal san (JSValue.obj entries)
      = JSValue.obj
          (entries.map (fun p => (p.1, SecurityMiddleware.sanitizeVal san p.2))) ∧
    SecurityMiddleware.sanitizeVal san (JSValue.arr elems)
      = JSValue.obj
          ((List.enumFrom 0 elems).map
            (fun p => (toString p.1, SecurityMiddleware.sanitizeVal san p.2))) := by
  have hmain : SecurityMiddleware.sanitizeFormData config san entries
      = entries.map (fun p => (p.1, SecurityMiddleware.sanitizeVal san p.2)) := by
    simp [SecurityMiddleware.sanitizeFormData, hen, sanitizeEntries_eq_map]
  refine ⟨hmain, ?_, rfl, rfl, rfl, rfl, ?_, ?_⟩
  · simp [hmain]
  · simp [SecurityMiddleware.sanitizeVal, sanitizeEntries_eq_map]
  · simp [SecurityMiddleware.sanitizeVal, indexEntries_eq_enumFrom]

/-- Concrete instance of `sanitizeFormData_shape`: a mixed object holding a
string, a null, a number, a boolean, a nested object and a nested array. -/
theorem sanitizeFormData_shape_witness :
    SecurityMiddleware.sanitizeFormData
        { enableCSRF := true, enableSecurityHeaders := true,
          enableInputSanitization := true }
        (fun s => s)
        [("a", JSValue.str "x"), ("b", JSValue.null), ("c", JSValue.num 3),
         ("d", JSValue.bool true), ("e", JSValue.obj [("k", JSValue.str "y")]),
         ("f", JSValue.arr [JSValue.num 1, JSValue.str "z"])]
      = [("a", JSValue.str "x"), ("b", JSValue.null), ("c", JSValue.num 3),
         ("d", JSValue.bool true), ("e", JSValue.obj [("k", JSValue.str "y")]),
         ("f", JSValue.obj [("0", JSValue.num 1), ("1", JSValue.str "z")])] := by
  have h := (sanitizeFormData_shape
    { enableCSRF := true, enableSecurityHeaders := true,
      enableInputSanitization := true }
    (fun s => s)
    [("a", JSValue.str "x"), ("b", JSValue.null), ("c", JSValue.num 3),
     ("d", JSValue.bool true), ("e", JSValue.obj [("k", JSValue.str "y")]),
     ("f", JSValue.arr [JSValue.num 1, JSValue.str "z"])]
    [] "x" 3 true rfl).1
  rw [h]
  simp [SecurityMiddleware.sanitizeVal, sanitizeEntries_eq_map,
    indexEntries_eq_enumFrom, List.enumFrom]
  exact ⟨rfl, rfl⟩

/-! ## Claim C2: security headers -/

/-- C2 counterexample: with security headers enabled, the returned mapping
holds no `Content-Security-Policy` entry at all (the source removed the CSP
header "for development flexibility"), contradicting the claimed non-empty
CSP value. -/
theorem applySecurityHeaders_no_csp :
    mapFind
        (SecurityMiddleware.applySecurityHeaders
          { enableCSRF := true, enableSecurityHeaders := true,
            enableInputSanitization := true })
        "Content-Security-Policy" = none := by decide

/-- C2 (amended): when enabled, the headers include non-empty values for
Strict-Transport-Security, X-Frame-Options = `DENY`, and a Permissions-Policy
containing `camera=()`, `microphone=()`, `geolocation=()` and `payment=()`,
but no Content-Security-Policy entry; when disabled, the mapping is empty. -/
theorem applySecurityHeaders_spec (config : SecurityMiddleware.MWConfig) :
    (config.enableSecurityHeaders = true →
      mapFind (SecurityMiddleware.applySecurityHeaders config) "X-Frame-Options"
          = some "DENY" ∧
      mapFind (SecurityMiddleware.applySecurityHeaders config)
          "Strict-Transport-Security"
          = some "max-age=31536000; includeSubDomains; preload" ∧
      (∀ v, mapFind (SecurityMiddleware.applySecurityHeaders config)
          "Strict-Transport-Security" = some v → v ≠ "") ∧
      (∀ v, mapFind (SecurityMiddleware.applySecurityHeaders config)
          "Permissions-Policy" = some v →
        v ≠ "" ∧ "camera=()".data <:+: v.data ∧ "microphone=()".data <:+: v.data ∧
        "geolocation=()".data <:+: v.data ∧ "payment=()".data <:+: v.data) ∧
      mapFind (SecurityMiddleware.applySecurityHeaders config) "Permissions-Policy"
          = some "camera=(), microphone=(), geolocation=(), payment=()" ∧
      mapFind (SecurityMiddleware.applySecurityHeaders config)
          "Content-Security-Policy" = none) ∧
    (config.enableSecurityHeaders = false →
      SecurityMiddleware.applySecurityHeaders config = []) := by
  constructor
  · intro h
    have hred : SecurityMiddleware.applySecurityHeaders config
        = SecurityHeaders.getHeaders := by
      simp [SecurityMiddleware.applySecurityHeaders, h]
    rw [hred]
    refine ⟨by decide, by decide, ?_, ?_, by decide, by decide⟩
    · intro v hv
      have : v = "max-age=31536000; includeSubDomains; preload" := by
        have hh : mapFind SecurityHeaders.getHeaders "Strict-Transport-Security"
            = some "max-age=31536000; includeSubDomains; preload" := by decide
        rw [hh] at hv
        exact (Option.some_inj.mp hv).symm
      subst this
      decide
    · intro v hv
      have : v = "camera=(), microphone=(), geolocation=(), payment=()" := by
        have hh : mapFind SecurityHeaders.getHeaders "Permissions-Policy"
            = some "camera=(), microphone=(), geolocation=(), payment=()" := by decide
        rw [hh] at hv
        exact (Option.some_inj.mp hv).symm
      subst this
      refine ⟨by decide, by decide, by decide, by decide, by decide⟩
  · intro h
    simp [SecurityMiddleware.applySecurityHeaders, h]

/-- Concrete instances of both branches of `applySecurityHeaders_spec`. -/
theorem applySecurityHeaders_spec_witness :
    mapFind
        (SecurityMiddleware.applySecurityHeaders
          { enableCSRF := true, enableSecurityHeaders := true,
            enableInputSanitization := true }) "X-Frame-Options" = some "DENY" ∧
    mapFind
        (SecurityMiddleware.applySecurityHeaders
          { enableCSRF := true, enableSecurityHeaders := true,
            enableInputSanitization := true }) "Permissions-Policy"
        = some "camera=(), microphone=(), geolocation=(), payment=()" ∧
    SecurityMiddleware.applySecurityHeaders
        { enableCSRF := true, enableSecurityHeaders := false,
          enableInputSanitization := true } = [] := by
  refine ⟨?_, ?_, ?_⟩
  · exact ((applySecurityHeaders_spec
      { enableCSRF := true, enableSecurityHeaders := true,
        enableInputSanitization := true }).1 rfl).1
  · exact ((applySecurityHeaders_spec
      { enableCSRF := true, enableSecurityHeaders := true,
        enableInputSanitization := true }).1 rfl).2.2.2.2.1
  · exact (applySecurityHeaders_spec
      { enableCSRF := true, enableSecurityHeaders := false,
        enableInputSanitization := true }).2 rfl

/-! ## Claim C5: middleware upload validation rejections -/

/-- C5: `validateFileUpload` rejects (with the extension-denylist message)
every file whose name ends in a denylisted extension, whatever the declared
MIME type; rejects (with the message stating the 10MB limit) every file
larger than the 10 MiB ceiling; and reports both reasons together when both
violations hold. -/
theorem validateFileUpload_rejections (file : FileUploadSecurity.FileDesc) :
    (FileUploadSecurity.hasDangerousExtension file.name = true →
      (SecurityMiddleware.validateFileUpload file).valid = false ∧
      "File extension is not allowed for security reasons"
        ∈ (SecurityMiddleware.validateFileUpload file).errors) ∧
    (file.size > SecurityMiddleware.maxSize →
      (SecurityMiddleware.validateFileUpload file).valid = false ∧
      "File size exceeds maximum limit of 10MB"
        ∈ (SecurityMiddleware.validateFileUpload file).errors) ∧
    (FileUploadSecurity.hasDangerousExtension file.name = true →
     file.size > SecurityMiddleware.maxSize →
      "File extension is not allowed for security reasons"
        ∈ (SecurityMiddleware.validateFileUpload file).errors ∧
      "File size exceeds maximum limit of 10MB"
        ∈ (SecurityMiddleware.validateFileUpload file).errors) := by
  refine ⟨fun hext => ?_, fun hsize => ?_, fun hext hsize => ?_⟩
  · constructor
    · simp [SecurityMiddleware.validateFileUpload, hext, List.isEmpty_iff]
    · simp [SecurityMiddleware.validateFileUpload, hext]
  · constructor
    · simp [SecurityMiddleware.validateFileUpload, hsize, List.isEmpty_iff]
    · simp only [SecurityMiddleware.validateFileUpload, hsize, if_true,
        gt_iff_lt, List.mem_append]
      refine Or.inl (Or.inr ?_)
      simp [SecurityMiddleware.maxSize]
      rfl
  · constructor
    · simp [SecurityMiddleware.validateFileUpload, hext]
    · simp only [SecurityMiddleware.validateFileUpload, hsize, if_true,
        gt_iff_lt, List.mem_append]
      refine Or.inl (Or.inr ?_)
      simp [SecurityMiddleware.maxSize]
      rfl

/-- Concrete instance of `validateFileUpload_rejections`: an 11 MiB file
named `invoice.pdf.exe` declared as `application/pdf`. -/
theorem validateFileUpload_rejections_witness :
    FileUploadSecurity.hasDangerousExtension "invoice.pdf.exe" = true ∧
    11 * 1024 * 1024 > SecurityMiddleware.maxSize ∧
    (SecurityMiddleware.validateFileUpload
        { name := "invoice.pdf.exe", type := "application/pdf",
          size := 11 * 1024 * 1024, content := none }).valid = false ∧
    "File extension is not allowed for security reasons"
      ∈ (SecurityMiddleware.validateFileUpload
          { name := "invoice.pdf.exe", type := "application/pdf",
            size := 11 * 1024 * 1024, content := none }).errors ∧
    "File size exceeds maximum limit of 10MB"
      ∈ (SecurityMiddleware.validateFileUpload
          { name := "invoice.pdf.exe", type := "application/pdf",
            size := 11 * 1024 * 1024, content := none }).errors := by
  have h := validateFileUpload_rejections
    { name := "invoice.pdf.exe", type := "application/pdf",
      size := 11 * 1024 * 1024, content := none }
  refine ⟨by decide, by decide, (h.1 (by decide)).1, ?_, ?_⟩
  · exact (h.2.2 (by decide) (by decide)).1
  · exact (h.2.2 (by decide) (by decide)).2

/-! ## Claim C3: the content-signature scan never rejects -/

/-- C3: the scanner itself flags a PE-signature file, but `validateFile`
returns `valid := true` with no errors for that same file when the size, MIME
type and extension checks pass — the source appends the scan errors to the
scan's own shadowed list, so they never reach the returned error list. -/
theorem validateFile_ignores_executable_content :
    FileUploadSecurity.scanFileContent [0x4D, 0x5A, 0x90, 0x00]
      = ["File contains executable code"] ∧
    FileUploadSecurity.validateFile defaultSecurityConfig
        { name := "photo.jpg", type := "image/jpeg", size := 4,
          content := some [0x4D, 0x5A, 0x90, 0x00] }
      = { valid := true, errors := [], sanitizedName := some "photo.jpg" } := by
  constructor <;> rfl

/-! ## Claim C4: SQL-parameter sanitization -/

theorem mem_of_mem_stripSQLComments (c : Char) (l : List Char)
    (h : c ∈ InputSanitizer.stripSQLComments l) : c ∈ l := by
  induction l using InputSanitizer.stripSQLComments.induct with
  | case1 => simp [InputSanitizer.stripSQLComments] at h
  | case2 d => exact h
  | case3 a b rest hcond ih =>
    rw [InputSanitizer.stripSQLComments, if_pos hcond] at h
    exact List.mem_cons_of_mem a (List.mem_cons_of_mem b (ih h))
  | case4 a b rest hcond ih =>
    rw [InputSanitizer.stripSQLComments, if_neg hcond] at h
    rcases List.mem_cons.mp h with h | h
    · exact List.mem_cons.mpr (Or.inl h)
    · exact List.mem_cons_of_mem a (ih h)

theorem stripSQLComments_head_dash (l : List Char) (hstar : '*' ∉ l)
    (h : (InputSanitizer.stripSQLComments l).head? = some '-') :
    l.head? = some '-' := by
  induction l using InputSanitizer.stripSQLComments.induct with
  | case1 => simp [InputSanitizer.stripSQLComments] at h
  | case2 d => exact h
  | case3 a b rest hcond ih =>
    simp only [Bool.or_eq_true, Bool.and_eq_true, beq_iff_eq] at hcond
    rcases hcond with (⟨ha, hb⟩ | ⟨ha, hb⟩) | ⟨ha, hb⟩
    · simp [ha]
    · exact absurd (by simp [ha]) hstar
    · exact absurd (by simp [hb]) hstar
  | case4 a b rest hcond ih =>
    rw [InputSanitizer.stripSQLComments, if_neg hcond] at h
    simpa using h

theorem hasDoubleDash_stripSQLComments (l : List Char) (hstar : '*' ∉ l) :
    InputSanitizer.hasDoubleDash (InputSanitizer.stripSQLComments l) = false := by
  induction l using InputSanitizer.stripSQLComments.induct with
  | case1 => rfl
  | case2 d => rfl
  | case3 a b rest hcond ih =>
    rw [InputSanitizer.stripSQLComments, if_pos hcond]
    exact ih (fun hm =>
      hstar (List.mem_cons_of_mem a (List.mem_cons_of_mem b hm)))
  | case4 a b rest hcond ih =>
    rw [InputSanitizer.stripSQLComments, if_neg hcond]
    have hstar' : '*' ∉ b :: rest := fun hm => hstar (List.mem_cons_of_mem a hm)
    have hb := ih hstar'
    cases hX : InputSanitizer.stripSQLComments (b :: rest) with
    | nil => rfl
    | cons d tail =>
      rw [hX] at hb
      rw [InputSanitizer.hasDoubleDash, hb, Bool.or_false]
      by_cases ha : a = '-'
      · subst ha
        by_cases hd : d = '-'
        · subst hd
          have hbdash : (b :: rest).head? = some '-' :=
            stripSQLComments_head_dash (b :: rest) hstar' (by rw [hX]; rfl)
          have hb2 : b = '-' := by simpa using hbdash
          subst hb2
          exact absurd (by simp) hcond
        · simp [hd]
      · simp [ha]

theorem hasDoubleDash_append (s t : List Char) :
    InputSanitizer.hasDoubleDash (s ++ ['-', '-'] ++ t) = true := by
  induction s with
  | nil => rfl
  | cons c s' ih =>
    cases hs : s' ++ ['-', '-'] ++ t with
    | nil => simp at hs
    | cons d tail =>
      have hshape : (c :: s') ++ ['-', '-'] ++ t = c :: d :: tail := by
        simp [hs]
      rw [hshape, InputSanitizer.hasDoubleDash]
      rw [hs] at ih
      rw [ih]
      simp

/-- C4 counterexample: with SQL-injection protection enabled, sanitizing
`"SEL;ECT"` yields exactly the SQL keyword `SELECT` — the metacharacter pass
deletes the `;` and thereby re-forms a keyword the keyword pass never saw, so
the output is not free of SQL keywords. -/
theorem sanitizeSQLParameter_keyword_reforms :
    defaultSecurityConfig.enableSQLInjectionProtection = true ∧
    InputSanitizer.sanitizeSQLParameter defaultSecurityConfig "SEL;ECT".data
      = "SELECT".data := by
  constructor
  · rfl
  · decide

/-- C4 (amended): with SQL-injection protection enabled, the output of
`sanitizeSQLParameter` contains no `;` character and no `--` substring (the
keyword guarantee of the claim fails: deletions of later passes can re-form a
keyword, as `sanitizeSQLParameter_keyword_reforms` shows). -/
theorem sanitizeSQLParameter_no_separators (config : SecurityConfig)
    (input : List Char) (h : config.enableSQLInjectionProtection = true) :
    ';' ∉ InputSanitizer.sanitizeSQLParameter config input ∧
    ¬ ['-', '-'] <:+: InputSanitizer.sanitizeSQLParameter config input := by
  have hred : InputSanitizer.sanitizeSQLParameter config input
      = InputSanitizer.stripSQLComments
          (InputSanitizer.stripSQLChars (InputSanitizer.stripSQLKeywords input)) := by
    simp [InputSanitizer.sanitizeSQLParameter, h]
  rw [hred]
  have hsemi : ';' ∉ InputSanitizer.stripSQLChars
      (InputSanitizer.stripSQLKeywords input) := by
    intro hm
    have := (List.mem_filter.mp hm).2
    simp [InputSanitizer.sqlMetaChars] at this
  have hstar : '*' ∉ InputSanitizer.stripSQLChars
      (InputSanitizer.stripSQLKeywords input) := by
    intro hm
    have := (List.mem_filter.mp hm).2
    simp [InputSanitizer.sqlMetaChars] at this
  constructor
  · intro hm
    exact hsemi (mem_of_mem_stripSQLComments ';' _ hm)
  · intro hinf
    obtain ⟨s, t, heq⟩ := hinf
    have h1 := hasDoubleDash_stripSQLComments
      (InputSanitizer.stripSQLChars (InputSanitizer.stripSQLKeywords input)) hstar
    have h2 : InputSanitizer.hasDoubleDash
        (InputSanitizer.stripSQLComments
          (InputSanitizer.stripSQLChars (InputSanitizer.stripSQLKeywords input)))
        = true := by
      rw [← heq]
      exact hasDoubleDash_append s t
    rw [h1] at h2
    exact Bool.false_ne_true h2

/-- Concrete instance of `sanitizeSQLParameter_no_separators` on an
injection-shaped input. -/
theorem sanitizeSQLParameter_no_separators_witness :
    defaultSecurityConfig.enableSQLInjectionProtection = true ∧
    ';' ∉ InputSanitizer.sanitizeSQLParameter defaultSecurityConfig
        "1; DROP TABLE users --".data ∧
    ¬ ['-', '-'] <:+: InputSanitizer.sanitizeSQLParameter defaultSecurityConfig
        "1; DROP TABLE users --".data :=
  ⟨rfl,
   (sanitizeSQLParameter_no_separators defaultSecurityConfig
      "1; DROP TABLE users --".data rfl).1,
   (sanitizeSQLParameter_no_separators defaultSecurityConfig
      "1; DROP TABLE users --".data rfl).2⟩
